import Mathlib

/-!
Shallow embedding of the Squid SDK core (route-execution coordinator,
parameter resolver, EVM-handler utilities, route-response normalizer)
and proofs of the specification's claims about it.

Sources embedded:
 * `Squid` class: init gate, getStatus, getRoute, executeRoute,
   isRouteApproved, approveRoute, getRawTxHex, getAllBalances partition,
   populateRouteParams, validateInit, validateTransactionRequest.
 * `Utils` class: validateNativeBalance, validateTokenBalance, getGasData.
 * `parseRoute` from 0xsquid/v1/route.ts.

TypeScript `throw new Error(msg)` is embedded as `Except.error msg` with the
exact message strings the source builds.  Handler invocations (the calls into
`this.handlers.evm` / `this.handlers.cosmos`) are embedded as result values of
type `HandlerAction`, so an `Except.error` result means no handler was invoked.
-/

/-- `ChainType.EVM` from the types module. -/
def chainTypeEVM : String := "evm"

/-- `ChainType.COSMOS` from the types module. -/
def chainTypeCOSMOS : String := "cosmos"

/-- The native-token sentinel address (`nativeTokenConstant` from constants). -/
def nativeTokenConstant : String := "0xEeeeeEeeeeEeeeeEeeeeEeeeeEeeeeEeeeeEEeE"

/-- A TypeScript `string | number` chain identifier. -/
inductive ChainId where
  | str (s : String)
  | num (n : Nat)
deriving DecidableEq, Repr

/-- `String(chainId)` as used by `getAllBalances` for normalization and by
template-string interpolation in error messages. -/
def ChainId.toStr : ChainId → String
  | .str s => s
  | .num n => toString n

/-- Static chain metadata (`ChainData`), restricted to the fields the embedded
operations read. -/
structure ChainData where
  chainId : ChainId
  chainType : String
  rpc : String
  nativeSymbol : String
deriving DecidableEq, Repr

/-- Static token metadata (`Token`), restricted to the fields the embedded
operations read. -/
structure TokenData where
  chainId : ChainId
  address : String
  symbol : String
  decimals : Nat
deriving DecidableEq, Repr

/-- The caller's route request (`RouteRequest`), restricted to the fields
`populateRouteParams` destructures. -/
structure RouteRequest where
  fromChain : ChainId
  toChain : ChainId
  fromToken : String
  toToken : String
deriving DecidableEq, Repr

/-- `SquidData`: the transaction-request payload embedded in a route.  The gas
fields are optional strings; a missing field destructures to `undefined`,
embedded as `none`. -/
structure SquidData where
  target : String
  callData : String
  value : String
  gasLimit : Option String
  gasPrice : Option String
  maxPriorityFeePerGas : Option String
  maxFeePerGas : Option String
deriving DecidableEq, Repr

/-- A server-returned route: its request params and an optional transaction
request (`route.transactionRequest` may be absent). -/
structure Route where
  params : RouteRequest
  transactionRequest : Option SquidData
deriving DecidableEq, Repr

/-- An EVM signer capability, abstract. -/
structure EvmWallet where
  walletId : String
deriving DecidableEq, Repr

/-- A read provider built by `ethersAdapter.rpcProvider(chain.rpc)`. -/
structure RpcProvider where
  rpcUrl : String
deriving DecidableEq, Repr

/-- The runner a contract handle is bound to: `signer || fromProvider`. -/
inductive ContractRunner where
  | signer (w : EvmWallet)
  | provider (p : RpcProvider)
deriving DecidableEq, Repr

/-- A bound ERC20 contract handle built by
`ethersAdapter.contract(address, erc20Abi, runner)`. -/
structure ContractHandle where
  address : String
  runner : ContractRunner
deriving DecidableEq, Repr

/-- `RouteParamsPopulated`: the resolved parameter set returned by
`populateRouteParams`. -/
structure RouteParamsPopulated where
  fromChain : ChainData
  toChain : ChainData
  fromToken : TokenData
  toToken : TokenData
  fromTokenContract : Option ContractHandle
  fromProvider : RpcProvider
  fromIsNative : Bool
deriving DecidableEq, Repr

/-- The mutable state of a `Squid` instance that the embedded operations read:
the latched `initialized` flag and the metadata store loaded by `init()`. -/
structure SquidState where
  initialized : Bool
  chains : List ChainData
  tokens : List TokenData
deriving DecidableEq, Repr

/-- The message of the error thrown by `validateInit`. -/
def notInitializedMsg : String :=
  "SquidSdk must be initialized! Please call the SquidSdk.init method"

/-- The message of the error thrown by `validateTransactionRequest`. -/
def missingTransactionRequestMsg : String :=
  "transactionRequest param not found in route object"

/-- The message of the error thrown by the `default` branch of the
chain-family switches: `Method not supported given chain type ${chainType}`. -/
def unsupportedChainFamilyMsg (chainType : String) : String :=
  "Method not supported given chain type " ++ chainType

/-- `Squid.validateInit`: throws unless `this.initialized` is set. -/
def validateInit (s : SquidState) : Except String Unit :=
  if !s.initialized then Except.error notInitializedMsg else Except.ok ()

/-- `Squid.validateTransactionRequest`: throws when
`route.transactionRequest` is absent. -/
def validateTransactionRequest (route : Route) : Except String Unit :=
  match route.transactionRequest with
  | none => Except.error missingTransactionRequestMsg
  | some _ => Except.ok ()

/-- Modelled from the spec: `TokensChains.getChainData` is not under src/
(the `TokensChains` base class is imported from "./TokensChains").  The spec
says the resolver "looks up both chains ... in the Metadata Store; fails with
`NotFoundError` if any lookup misses (unknown chain id ...)". -/
def getChainData (s : SquidState) (chainId : ChainId) : Except String ChainData :=
  match s.chains.find? (fun c => c.chainId == chainId) with
  | some c => Except.ok c
  | none => Except.error ("Could not find chain with id " ++ chainId.toStr)

/-- Modelled from the spec: `TokensChains.getTokenData` is not under src/.
The spec says the resolver "looks up ... both tokens in the Metadata Store;
fails with `NotFoundError` if any lookup misses (... token address for that
chain)". -/
def getTokenData (s : SquidState) (address : String) (chainId : ChainId) :
    Except String TokenData :=
  match s.tokens.find? (fun t => t.address == address && t.chainId == chainId) with
  | some t => Except.ok t
  | none => Except.error ("Could not find token with address " ++ address)

/-- `Squid.populateRouteParams`: resolves both chains and both tokens, builds
the read provider, decides nativeness against the sentinel, and binds an ERC20
contract handle for non-native source tokens using `signer || fromProvider`. -/
def populateRouteParams (s : SquidState) (params : RouteRequest)
    (signer : Option EvmWallet) : Except String RouteParamsPopulated := do
  let fc ← getChainData s params.fromChain
  let tc ← getChainData s params.toChain
  let ft ← getTokenData s params.fromToken params.fromChain
  let tt ← getTokenData s params.toToken params.toChain
  let fromProvider : RpcProvider := { rpcUrl := fc.rpc }
  let fromIsNative := ft.address == nativeTokenConstant
  let fromTokenContract : Option ContractHandle :=
    if fromIsNative then none
    else some
      { address := ft.address
        runner := match signer with
          | some w => ContractRunner.signer w
          | none => ContractRunner.provider fromProvider }
  Except.ok
    { fromChain := fc
      toChain := tc
      fromToken := ft
      toToken := tt
      fromTokenContract := fromTokenContract
      fromProvider := fromProvider
      fromIsNative := fromIsNative }

/-- Which chain-family handler an invocation went to. -/
inductive HandlerTag where
  | evm
  | cosmos
deriving DecidableEq, Repr

/-- A handler invocation performed by a coordinator operation.  Errors raised
before dispatch mean no such action is ever produced. -/
inductive HandlerAction where
  | evmExecute (params : RouteParamsPopulated)
  | cosmosExecute (params : RouteParamsPopulated)
  | evmApprove (params : RouteParamsPopulated)
  | evmIsApproved (params : RouteParamsPopulated) (sender : String) (target : String)
  | evmRawTx (route : Route) (nonce : Nat)
deriving DecidableEq, Repr

/-- The handler a `HandlerAction` was dispatched to. -/
def HandlerAction.handler : HandlerAction → HandlerTag
  | .evmExecute _ => .evm
  | .cosmosExecute _ => .cosmos
  | .evmApprove _ => .evm
  | .evmIsApproved _ _ _ => .evm
  | .evmRawTx _ _ => .evm

/-- The `switch (params.fromChain.chainType)` statement of
`Squid.executeRoute`: EVM and COSMOS cases dispatch to the matching handler,
the `default` branch throws. -/
def executeRouteSwitch (params : RouteParamsPopulated) :
    Except String HandlerAction :=
  if params.fromChain.chainType == chainTypeEVM then
    Except.ok (HandlerAction.evmExecute params)
  else if params.fromChain.chainType == chainTypeCOSMOS then
    Except.ok (HandlerAction.cosmosExecute params)
  else
    Except.error (unsupportedChainFamilyMsg params.fromChain.chainType)

/-- `Squid.executeRoute`: validates init, validates the transaction request,
resolves params with the signer, then dispatches on the chain family. -/
def executeRoute (s : SquidState) (route : Route) (signer : EvmWallet) :
    Except String HandlerAction := do
  validateInit s
  validateTransactionRequest route
  let params ← populateRouteParams s route.params (some signer)
  executeRouteSwitch params

/-- The `switch (params.fromChain.chainType)` statement of
`Squid.isRouteApproved`: only the EVM case dispatches, everything else hits
the `default` branch and throws. -/
def isRouteApprovedSwitch (params : RouteParamsPopulated) (sender : String)
    (target : String) : Except String HandlerAction :=
  if params.fromChain.chainType == chainTypeEVM then
    Except.ok (HandlerAction.evmIsApproved params sender target)
  else
    Except.error (unsupportedChainFamilyMsg params.fromChain.chainType)

/-- `Squid.isRouteApproved`: validates init, validates the transaction
request, resolves params without a signer, then dispatches on the chain
family; the target passed to the handler is the transaction request's
`target`. -/
def isRouteApproved (s : SquidState) (route : Route) (sender : String) :
    Except String HandlerAction := do
  validateInit s
  validateTransactionRequest route
  let params ← populateRouteParams s route.params none
  let target := (route.transactionRequest.map SquidData.target).getD ""
  isRouteApprovedSwitch params sender target

/-- The `switch (params.fromChain.chainType)` statement of
`Squid.approveRoute`: only the EVM case dispatches, everything else hits the
`default` branch and throws. -/
def approveRouteSwitch (params : RouteParamsPopulated) :
    Except String HandlerAction :=
  if params.fromChain.chainType == chainTypeEVM then
    Except.ok (HandlerAction.evmApprove params)
  else
    Except.error (unsupportedChainFamilyMsg params.fromChain.chainType)

/-- `Squid.approveRoute`: validates init, validates the transaction request,
resolves params with the signer, then dispatches on the chain family. -/
def approveRoute (s : SquidState) (route : Route) (signer : EvmWallet) :
    Except String HandlerAction := do
  validateInit s
  validateTransactionRequest route
  let params ← populateRouteParams s route.params (some signer)
  approveRouteSwitch params

/-- `Squid.getRawTxHex`: validates init and the transaction request, then
directly calls `this.handlers.evm.getRawTxHex({...data})` — with no parameter
resolution and no chain-family switch. -/
def getRawTxHex (s : SquidState) (route : Route) (nonce : Nat) :
    Except String HandlerAction := do
  validateInit s
  validateTransactionRequest route
  Except.ok (HandlerAction.evmRawTx route nonce)

/-- An HTTP response as the transport hands it to the coordinator:
`{data, headers, status}`, with `data.error` the service's error message. -/
structure HttpResponse where
  status : Nat
  dataError : String
  dataBody : String
  headers : List (String × String)
deriving DecidableEq, Repr

/-- Header lookup, `"x-..." in headers ? headers["x-..."] : undefined`. -/
def headerLookup (headers : List (String × String)) (key : String) :
    Option String :=
  (headers.find? (fun kv => kv.fst == key)).map Prod.snd

/-- The value `getRoute` / `getStatus` return: the response payload plus the
echoed `x-request-id` / `x-integrator-id` headers. -/
structure RouteResult where
  body : String
  requestId : Option String
  integratorId : Option String
deriving DecidableEq, Repr

/-- `Squid.getRoute`: validates init, posts to the routing service, throws
`new Error(data.error)` on any non-200 status, and otherwise returns the data
with the echoed headers.  The network response is an explicit input. -/
def getRoute (s : SquidState) (response : HttpResponse) :
    Except String RouteResult := do
  validateInit s
  if response.status != 200 then
    Except.error response.dataError
  else
    Except.ok
      { body := response.dataBody
        requestId := headerLookup response.headers "x-request-id"
        integratorId := headerLookup response.headers "x-integrator-id" }

/-- `Squid.getStatus`: performs the HTTP GET and returns
`{...data, requestId, integratorId}`.  It never reads `this.initialized` and
calls no validator, which is why the instance state `s` is unused. -/
def getStatus (_s : SquidState) (response : HttpResponse) : Except String RouteResult :=
  Except.ok
    { body := response.dataBody
      requestId := headerLookup response.headers "x-request-id"
      integratorId := headerLookup response.headers "x-integrator-id" }

/-- The `reduce` inside `Squid.getAllBalances` partitioning `this.chains` by
family: chains whose normalized id is not requested are skipped; COSMOS chains
go to the second group; every other chain goes to the first (EVM) group. -/
def getAllBalancesStep (normalizedChainIds : List String)
    (acc : List ChainId × List ChainId) (chain : ChainData) :
    List ChainId × List ChainId :=
  if !(normalizedChainIds.contains chain.chainId.toStr) then
    acc
  else if chain.chainType == chainTypeCOSMOS then
    (acc.fst, acc.snd ++ [chain.chainId])
  else
    (acc.fst ++ [chain.chainId], acc.snd)

/-- The chain-id partition computed by `Squid.getAllBalances`:
`chainIds.map(String)` then the reduce over `this.chains` with initial
accumulator `[[], []]`, yielding `[evmChainIds, cosmosChainIds]`. -/
def getAllBalancesPartition (s : SquidState) (chainIds : List ChainId) :
    List ChainId × List ChainId :=
  let normalizedChainIds := chainIds.map ChainId.toStr
  s.chains.foldl (getAllBalancesStep normalizedChainIds) ([], [])

/-- The message of the error thrown by both balance validators:
`Insufficient funds for account: ${sender} on chain ${fromChain.chainId}`. -/
def insufficientFundsMsg (sender : String) (chainId : ChainId) : String :=
  "Insufficient funds for account: " ++ sender ++ " on chain " ++ chainId.toStr

/-- The approval result both balance validators return on success. -/
structure ApprovalResult where
  isApproved : Bool
  message : String
deriving DecidableEq, Repr

/-- `Utils.validateNativeBalance`: compares the required amount against the
provider-queried native balance (the awaited query result is an explicit
input); `amount > balance` throws, otherwise an approved result. -/
def validateNativeBalance (sender : String) (fromChain : ChainData)
    (amount balance : Int) : Except String ApprovalResult :=
  if amount > balance then
    Except.error (insufficientFundsMsg sender fromChain.chainId)
  else
    Except.ok
      { isApproved := true
        message := "User has the expected balance " ++ toString amount ++
          " of " ++ fromChain.nativeSymbol }

/-- `Utils.validateTokenBalance`: compares the required amount against the
contract-queried token balance (the awaited `balanceOf` / `symbol()` results
are explicit inputs); `amount > balance` throws, otherwise an approved
result. -/
def validateTokenBalance (sender : String) (fromChain : ChainData)
    (tokenSymbol : String) (amount balance : Int) :
    Except String ApprovalResult :=
  if amount > balance then
    Except.error (insufficientFundsMsg sender fromChain.chainId)
  else
    Except.ok
      { isApproved := true
        message := "User has approved Squid to use " ++ toString amount ++
          " of " ++ tokenSymbol }

/-- The keys of the gas-parameter object `Utils.getGasData` builds. -/
inductive GasKey where
  | gasLimit
  | gasPrice
  | maxPriorityFeePerGas
  | maxFeePerGas
deriving DecidableEq, Repr

/-- A JavaScript object over gas keys: an ordered list of key/value entries,
where the value `none` stands for a key present with value `undefined`.  A key
never occurs twice (objects are maps); lookups take the first occurrence. -/
abbrev GasObject : Type := List (GasKey × Option String)

/-- Key membership in a gas object (`key in obj`). -/
def gasHasKey (o : GasObject) (k : GasKey) : Bool :=
  (List.find? (fun kv => kv.fst == k) o).isSome

/-- Lookup in a gas object: `some v` when the key is present with value `v`,
`none` when the key is absent. -/
def gasLookup (o : GasObject) (k : GasKey) : Option (Option String) :=
  (List.find? (fun kv => kv.fst == k) o).map Prod.snd

/-- One entry of `{...a, ...b}` coming from `a`: its value is replaced by
`b`'s when `b` also has the key. -/
def spreadEntry (b : GasObject) (kv : GasKey × Option String) :
    GasKey × Option String :=
  match gasLookup b kv.fst with
  | some w => (kv.fst, w)
  | none => kv

/-- JavaScript spread `{...a, ...b}`: the keys of `a` in order, each taking
`b`'s value when `b` also has the key, followed by the keys of `b` absent
from `a`, in `b`'s order. -/
def jsSpread (a b : GasObject) : GasObject :=
  List.map (spreadEntry b) a ++
    List.filter (fun kv => !gasHasKey a kv.fst) b

/-- JavaScript truthiness of an optional string field: `undefined` and the
empty string are falsy. -/
def strTruthy : Option String → Bool
  | none => false
  | some s => !(s == "")

/-- `Utils.getGasData`: destructures the four gas fields of the transaction
request, builds `{gasLimit, maxPriorityFeePerGas, maxFeePerGas}` when
`maxPriorityFeePerGas` is truthy and `{gasLimit, gasPrice}` otherwise, then
spreads the overrides on top when an overrides object was supplied. -/
def getGasData (transactionRequest : SquidData) (overrides : Option GasObject) :
    GasObject :=
  let gasParams : GasObject :=
    if strTruthy transactionRequest.maxPriorityFeePerGas then
      [(GasKey.gasLimit, transactionRequest.gasLimit),
       (GasKey.maxPriorityFeePerGas, transactionRequest.maxPriorityFeePerGas),
       (GasKey.maxFeePerGas, transactionRequest.maxFeePerGas)]
    else
      [(GasKey.gasLimit, transactionRequest.gasLimit),
       (GasKey.gasPrice, transactionRequest.gasPrice)]
  match overrides with
  | some ov => jsSpread gasParams ov
  | none => gasParams

/-- `CallType.BRIDGE` from the v1 types module. -/
def callTypeBRIDGE : String := "BRIDGE"

/-- `CallType.SWAP` from the v1 types module. -/
def callTypeSWAP : String := "SWAP"

/-- `CallType.CUSTOM` from the v1 types module. -/
def callTypeCUSTOM : String := "CUSTOM"

/-- A raw call entry of the routing service's response, before normalization:
its discriminator tag and its remaining payload, kept abstract. -/
structure RawCall where
  tag : String
  payload : String
deriving DecidableEq, Repr

/-- A normalized call of the route plan, as built by `parseBridge`,
`parseSwap` or `parseCustom`: `parseBridge` stamps the tag
`CallType.BRIDGE`, the other two keep the raw tag. -/
structure ParsedCall where
  tag : String
  payload : String
deriving DecidableEq, Repr

/-- `parseBridge`: builds the normalized bridge call, with
`type: CallType.BRIDGE`. -/
def parseBridge (c : RawCall) : ParsedCall :=
  { tag := callTypeBRIDGE, payload := c.payload }

/-- `parseSwap`: builds the normalized swap call, keeping the raw `type`. -/
def parseSwap (c : RawCall) : ParsedCall :=
  { tag := c.tag, payload := c.payload }

/-- `parseCustom`: builds the normalized custom call, keeping the raw
`type`. -/
def parseCustom (c : RawCall) : ParsedCall :=
  { tag := c.tag, payload := c.payload }

/-- The filter predicate of `parseRoute`:
`[CallType.BRIDGE, CallType.CUSTOM, CallType.SWAP].includes(call.type)`. -/
def callTagRetained (tag : String) : Bool :=
  [callTypeBRIDGE, callTypeCUSTOM, callTypeSWAP].contains tag

/-- The `map` body of `parseRoute`: a `switch` on the (already filtered)
call's tag, choosing `parseBridge`, `parseSwap` or `parseCustom`. -/
def parseOneCall (c : RawCall) : ParsedCall :=
  if c.tag == callTypeBRIDGE then parseBridge c
  else if c.tag == callTypeSWAP then parseSwap c
  else parseCustom c

/-- `parseRoute`: filters the raw call list down to the three recognized
tags, then maps each retained call through its parse function. -/
def parseRoute (data : List RawCall) : List ParsedCall :=
  (data.filter (fun c => callTagRetained c.tag)).map parseOneCall

/-- C1 — counterexample.  The claim quantifies over every core public
operation of the `Squid` class and cites `Squid.getStatus`; but `getStatus`
never calls `validateInit`: on a state whose `initialized` flag is false it
succeeds instead of failing with the `NotInitializedError` message. -/
theorem c1_counterexample :
    (SquidState.mk false [] []).initialized = false ∧
    getStatus (SquidState.mk false [] [])
        { status := 200, dataError := "", dataBody := "ok", headers := [] } =
      Except.ok { body := "ok", requestId := none, integratorId := none } := by
  exact ⟨rfl, rfl⟩

/-- C1 (amended) — the five operations that do call `validateInit`
(`getRoute`, `executeRoute`, `approveRoute`, `isRouteApproved`,
`getRawTxHex`) all fail with the `NotInitializedError` message whenever the
`initialized` flag is unset, for every input, before doing anything else. -/
theorem c1_theorem (s : SquidState) (h : s.initialized = false)
    (route : Route) (signer : EvmWallet) (sender : String) (nonce : Nat)
    (resp : HttpResponse) :
    getRoute s resp = Except.error notInitializedMsg ∧
    executeRoute s route signer = Except.error notInitializedMsg ∧
    approveRoute s route signer = Except.error notInitializedMsg ∧
    isRouteApproved s route sender = Except.error notInitializedMsg ∧
    getRawTxHex s route nonce = Except.error notInitializedMsg := by
  refine ⟨?_, ?_, ?_, ?_, ?_⟩ <;>
    simp [getRoute, executeRoute, approveRoute, isRouteApproved, getRawTxHex,
      validateInit, h, Bind.bind, Except.bind]

/-- C1 — witness for the amended theorem at concrete inputs. -/
theorem c1_witness :
    getRoute (SquidState.mk false [] [])
        { status := 200, dataError := "", dataBody := "", headers := [] } =
      Except.error notInitializedMsg :=
  (c1_theorem (SquidState.mk false [] []) rfl
      { params := { fromChain := .num 1, toChain := .num 1,
                    fromToken := "a", toToken := "b" },
        transactionRequest := none }
      { walletId := "w" } "0xsender" 0
      { status := 200, dataError := "", dataBody := "", headers := [] }).1

/-- C2 — on an initialized SDK, every route without a transaction request
makes `executeRoute`, `approveRoute`, `isRouteApproved` and `getRawTxHex`
fail with the `MissingTransactionRequestError` message.  An error result
means no `HandlerAction` is produced, i.e. no chain-family handler is ever
invoked. -/
theorem c2_theorem (s : SquidState) (route : Route) (signer : EvmWallet)
    (sender : String) (nonce : Nat) (hinit : s.initialized = true)
    (htx : route.transactionRequest = none) :
    executeRoute s route signer = Except.error missingTransactionRequestMsg ∧
    approveRoute s route signer = Except.error missingTransactionRequestMsg ∧
    isRouteApproved s route sender = Except.error missingTransactionRequestMsg ∧
    getRawTxHex s route nonce = Except.error missingTransactionRequestMsg := by
  refine ⟨?_, ?_, ?_, ?_⟩ <;>
    simp [executeRoute, approveRoute, isRouteApproved, getRawTxHex,
      validateInit, validateTransactionRequest, hinit, htx, Bind.bind, Except.bind]

/-- C2 — witness at concrete inputs. -/
theorem c2_witness :
    executeRoute (SquidState.mk true [] [])
        { params := { fromChain := .num 1, toChain := .num 1,
                      fromToken := "a", toToken := "b" },
          transactionRequest := none }
        { walletId := "w" } =
      Except.error missingTransactionRequestMsg :=
  (c2_theorem (SquidState.mk true [] [])
      { params := { fromChain := .num 1, toChain := .num 1,
                    fromToken := "a", toToken := "b" },
        transactionRequest := none }
      { walletId := "w" } "0xsender" 0 rfl rfl).1

/-- C9 — on an initialized SDK, any routing-service response with a non-200
status makes `getRoute` fail with exactly the service's error message
(`data.error`). -/
theorem c9_theorem (s : SquidState) (resp : HttpResponse)
    (hinit : s.initialized = true) (hstatus : resp.status ≠ 200) :
    getRoute s resp = Except.error resp.dataError := by
  simp [getRoute, validateInit, hinit, hstatus, Bind.bind, Except.bind]

/-- C9 — witness: status 400 with body error `"slippage too high"` produces
an error whose message is exactly `"slippage too high"`. -/
theorem c9_witness :
    getRoute (SquidState.mk true [] [])
        { status := 400, dataError := "slippage too high", dataBody := "",
          headers := [] } =
      Except.error "slippage too high" :=
  c9_theorem (SquidState.mk true [] [])
    { status := 400, dataError := "slippage too high", dataBody := "",
      headers := [] } rfl (by decide)

/-- C3 — handler dispatch is a pure function of
`resolvedParams.fromChain.chainType`: two resolved parameter sets with the
same chain family always select the same handler in each dispatching
operation's switch, and any chain-type value outside {EVM, COSMOS} makes
every dispatching switch fail with the `UnsupportedChainFamilyError`
message. -/
theorem c3_theorem (p q : RouteParamsPopulated) :
    (p.fromChain.chainType = q.fromChain.chainType →
      Except.map HandlerAction.handler (executeRouteSwitch p) =
        Except.map HandlerAction.handler (executeRouteSwitch q) ∧
      Except.map HandlerAction.handler (approveRouteSwitch p) =
        Except.map HandlerAction.handler (approveRouteSwitch q) ∧
      ∀ sender₁ target₁ sender₂ target₂,
        Except.map HandlerAction.handler (isRouteApprovedSwitch p sender₁ target₁) =
          Except.map HandlerAction.handler (isRouteApprovedSwitch q sender₂ target₂)) ∧
    (p.fromChain.chainType ≠ chainTypeEVM →
      p.fromChain.chainType ≠ chainTypeCOSMOS →
      executeRouteSwitch p =
        Except.error (unsupportedChainFamilyMsg p.fromChain.chainType) ∧
      approveRouteSwitch p =
        Except.error (unsupportedChainFamilyMsg p.fromChain.chainType) ∧
      ∀ sender target, isRouteApprovedSwitch p sender target =
        Except.error (unsupportedChainFamilyMsg p.fromChain.chainType)) := by
  constructor
  · intro h
    refine ⟨?_, ?_, fun sender₁ target₁ sender₂ target₂ => ?_⟩ <;>
      · simp only [executeRouteSwitch, approveRouteSwitch, isRouteApprovedSwitch, h]
        split <;> (try split) <;> simp [Except.map, HandlerAction.handler]
  · intro h1 h2
    refine ⟨?_, ?_, fun sender target => ?_⟩ <;>
      simp [executeRouteSwitch, approveRouteSwitch, isRouteApprovedSwitch,
        h1, h2]

/-- A concrete resolved parameter set with an unknown chain family. -/
def c3Params : RouteParamsPopulated :=
  { fromChain := { chainId := .num 1, chainType := "solana",
                   rpc := "r", nativeSymbol := "SOL" },
    toChain := { chainId := .num 1, chainType := "solana",
                 rpc := "r", nativeSymbol := "SOL" },
    fromToken := { chainId := .num 1, address := "t", symbol := "T",
                   decimals := 9 },
    toToken := { chainId := .num 1, address := "t", symbol := "T",
                 decimals := 9 },
    fromTokenContract := none,
    fromProvider := { rpcUrl := "r" },
    fromIsNative := false }

/-- C3 — witness: an unknown chain family at a concrete resolved parameter
set makes the execute switch fail with the exact unsupported-family
message. -/
theorem c3_witness :
    executeRouteSwitch c3Params =
      Except.error (unsupportedChainFamilyMsg "solana") :=
  ((c3_theorem c3Params c3Params).2 (by decide) (by decide)).1

/-- A concrete `Squid` state holding one Cosmos-family chain and its token,
used to exercise `getRawTxHex` on a Cosmos route. -/
def c4State : SquidState :=
  { initialized := true
    chains := [{ chainId := .str "cosmoshub-4", chainType := "cosmos",
                 rpc := "https://rpc.cosmos", nativeSymbol := "ATOM" }]
    tokens := [{ chainId := .str "cosmoshub-4", address := "uatom",
                 symbol := "ATOM", decimals := 6 }] }

/-- A concrete route whose source chain resolves to the Cosmos family and
which carries a transaction request. -/
def c4Route : Route :=
  { params := { fromChain := .str "cosmoshub-4", toChain := .str "cosmoshub-4",
                fromToken := "uatom", toToken := "uatom" }
    transactionRequest := some
      { target := "0xtarget", callData := "0xdata", value := "0",
        gasLimit := some "21000", gasPrice := some "5",
        maxPriorityFeePerGas := none, maxFeePerGas := none } }

/-- C4 — counterexample.  On a route whose resolved chain family is Cosmos
(`populateRouteParams` yields a params set with `chainType = COSMOS`),
`getRawTxHex` neither resolves parameters nor fails: it directly invokes the
EVM handler's raw-transaction builder, contradicting "resolves route
parameters ... only supported when the resolved chain family is EVM and
fails for every other chain family". -/
theorem c4_counterexample :
    (Except.map (fun p => p.fromChain.chainType)
        (populateRouteParams c4State c4Route.params none) =
      Except.ok chainTypeCOSMOS) ∧
    getRawTxHex c4State c4Route 7 =
      Except.ok (HandlerAction.evmRawTx c4Route 7) := by
  exact ⟨rfl, rfl⟩

/-- C4 (amended) — for every initialized state and every route carrying a
transaction request, `getRawTxHex` unconditionally invokes the EVM handler's
raw-transaction builder on the unresolved route: it performs no parameter
resolution and no chain-family check, whatever the route's chain family. -/
theorem c4_theorem (s : SquidState) (route : Route) (nonce : Nat)
    (hinit : s.initialized = true) (tr : SquidData)
    (htx : route.transactionRequest = some tr) :
    getRawTxHex s route nonce =
      Except.ok (HandlerAction.evmRawTx route nonce) := by
  simp [getRawTxHex, validateInit, validateTransactionRequest, hinit, htx,
    Bind.bind, Except.bind]

/-- C4 — witness for the amended theorem on the concrete Cosmos route. -/
theorem c4_witness :
    getRawTxHex c4State c4Route 7 =
      Except.ok (HandlerAction.evmRawTx c4Route 7) :=
  c4_theorem c4State c4Route 7 rfl _ rfl

/-- C6 — both balance validators fail with the `InsufficientBalanceError`
message (which carries the account and the chain identifier verbatim)
exactly when the required amount exceeds the queried balance, and return an
approved result whenever the amount is at most the balance. -/
theorem c6_theorem (sender : String) (fromChain : ChainData)
    (tokenSymbol : String) (amount balance : Int) :
    (insufficientFundsMsg sender fromChain.chainId =
      "Insufficient funds for account: " ++ sender ++ " on chain " ++
        fromChain.chainId.toStr) ∧
    (amount > balance →
      validateNativeBalance sender fromChain amount balance =
        Except.error (insufficientFundsMsg sender fromChain.chainId) ∧
      validateTokenBalance sender fromChain tokenSymbol amount balance =
        Except.error (insufficientFundsMsg sender fromChain.chainId)) ∧
    (amount ≤ balance →
      validateNativeBalance sender fromChain amount balance =
        Except.ok
          { isApproved := true
            message := "User has the expected balance " ++ toString amount ++
              " of " ++ fromChain.nativeSymbol } ∧
      validateTokenBalance sender fromChain tokenSymbol amount balance =
        Except.ok
          { isApproved := true
            message := "User has approved Squid to use " ++ toString amount ++
              " of " ++ tokenSymbol }) := by
  refine ⟨rfl, fun h => ?_, fun h => ?_⟩
  · exact ⟨by simp [validateNativeBalance, h], by simp [validateTokenBalance, h]⟩
  · have h' : ¬amount > balance := not_lt.mpr h
    exact ⟨by simp [validateNativeBalance, h'], by simp [validateTokenBalance, h']⟩

/-- C6 — witness at a concrete amount above, and a concrete amount at, the
queried balance. -/
theorem c6_witness :
    validateNativeBalance "0xabc"
        { chainId := .num 5, chainType := "evm", rpc := "r",
          nativeSymbol := "ETH" } 11 10 =
      Except.error (insufficientFundsMsg "0xabc" (.num 5)) ∧
    validateTokenBalance "0xabc"
        { chainId := .num 5, chainType := "evm", rpc := "r",
          nativeSymbol := "ETH" } "USDC" 10 10 =
      Except.ok
        { isApproved := true
          message := "User has approved Squid to use 10 of USDC" } :=
  by
  have hgt := c6_theorem "0xabc"
    { chainId := .num 5, chainType := "evm", rpc := "r",
      nativeSymbol := "ETH" } "USDC" 11 10
  have hle := c6_theorem "0xabc"
    { chainId := .num 5, chainType := "evm", rpc := "r",
      nativeSymbol := "ETH" } "USDC" 10 10
  exact ⟨(hgt.2.1 (by decide)).1, (hle.2.2 (by decide)).2⟩

/-- C7 — whenever `populateRouteParams` succeeds, the resolved source
token's nativeness flag is exactly "address equals the native sentinel"; a
native source yields no contract handle, and a non-native source yields a
handle bound to the source token's address, connected to the supplied signer
when one was given and to the read provider otherwise. -/
theorem c7_theorem (s : SquidState) (params : RouteRequest)
    (signer : Option EvmWallet) (p : RouteParamsPopulated)
    (h : populateRouteParams s params signer = Except.ok p) :
    (p.fromIsNative = (p.fromToken.address == nativeTokenConstant)) ∧
    (p.fromToken.address = nativeTokenConstant → p.fromTokenContract = none) ∧
    (p.fromToken.address ≠ nativeTokenConstant →
      p.fromTokenContract = some
        { address := p.fromToken.address
          runner := match signer with
            | some w => ContractRunner.signer w
            | none => ContractRunner.provider p.fromProvider }) := by
  unfold populateRouteParams at h
  cases hfc : getChainData s params.fromChain with
  | error e => rw [hfc] at h; simp [Bind.bind, Except.bind] at h
  | ok fc =>
  rw [hfc] at h
  cases htc : getChainData s params.toChain with
  | error e => rw [htc] at h; simp [Bind.bind, Except.bind] at h
  | ok tc =>
  rw [htc] at h
  cases hft : getTokenData s params.fromToken params.fromChain with
  | error e => rw [hft] at h; simp [Bind.bind, Except.bind] at h
  | ok ft =>
  rw [hft] at h
  cases htt : getTokenData s params.toToken params.toChain with
  | error e => rw [htt] at h; simp [Bind.bind, Except.bind] at h
  | ok tt =>
  rw [htt] at h
  simp only [Bind.bind, Except.bind, Except.ok.injEq] at h
  subst h
  by_cases hnat : ft.address = nativeTokenConstant
  · simp [hnat]
  · have hb : (ft.address == nativeTokenConstant) = false := by
      simpa using hnat
    cases signer <;> simp [hb, hnat]

/-- A concrete `Squid` state holding one EVM chain with a native token and a
non-native token. -/
def c7State : SquidState :=
  { initialized := true
    chains := [{ chainId := .num 1, chainType := "evm",
                 rpc := "https://rpc.eth", nativeSymbol := "ETH" }]
    tokens := [{ chainId := .num 1,
                 address := "0xEeeeeEeeeeEeeeeEeeeeEeeeeEeeeeEeeeeEEeE",
                 symbol := "ETH", decimals := 18 },
               { chainId := .num 1, address := "0xusdc", symbol := "USDC",
                 decimals := 6 }] }

/-- A concrete request with a non-native source token. -/
def c7Request : RouteRequest :=
  { fromChain := .num 1, toChain := .num 1,
    fromToken := "0xusdc", toToken := "0xusdc" }

/-- C7 — witness: resolving the non-native request without a signer yields a
contract handle bound to the token address and connected to the read
provider. -/
theorem c7_witness :
    (Except.map RouteParamsPopulated.fromTokenContract
        (populateRouteParams c7State c7Request none) =
      Except.ok (some
        { address := "0xusdc"
          runner := ContractRunner.provider { rpcUrl := "https://rpc.eth" } })) := by
  have h := c7_theorem c7State c7Request none
    { fromChain := { chainId := .num 1, chainType := "evm",
                     rpc := "https://rpc.eth", nativeSymbol := "ETH" }
      toChain := { chainId := .num 1, chainType := "evm",
                   rpc := "https://rpc.eth", nativeSymbol := "ETH" }
      fromToken := { chainId := .num 1, address := "0xusdc", symbol := "USDC",
                     decimals := 6 }
      toToken := { chainId := .num 1, address := "0xusdc", symbol := "USDC",
                   decimals := 6 }
      fromTokenContract := some
        { address := "0xusdc"
          runner := ContractRunner.provider { rpcUrl := "https://rpc.eth" } }
      fromProvider := { rpcUrl := "https://rpc.eth" }
      fromIsNative := false } rfl
  have h2 := h.2.2 (by decide)
  simp only [populateRouteParams, getChainData, getTokenData]
  rfl

/-- C8 — the normalized route plan contains exactly the parses of the raw
calls whose tag is one of {BRIDGE, CUSTOM, SWAP}: membership in the output
is equivalent to coming from a retained raw call, the output length equals
the number of retained raw calls, and the retention predicate accepts
precisely those three tags. -/
theorem c8_theorem (data : List RawCall) :
    (∀ x, x ∈ parseRoute data ↔
      ∃ c, c ∈ data ∧ callTagRetained c.tag = true ∧ x = parseOneCall c) ∧
    ((parseRoute data).length =
      (data.filter (fun c => callTagRetained c.tag)).length) ∧
    (∀ tag, callTagRetained tag = true ↔
      (tag = callTypeBRIDGE ∨ tag = callTypeCUSTOM ∨ tag = callTypeSWAP)) := by
  refine ⟨fun x => ?_, ?_, fun tag => ?_⟩
  · simp only [parseRoute, List.mem_map, List.mem_filter]
    constructor
    · rintro ⟨c, ⟨hc, hr⟩, hx⟩
      exact ⟨c, hc, hr, hx.symm⟩
    · rintro ⟨c, hc, hr, hx⟩
      exact ⟨c, ⟨hc, hr⟩, hx.symm⟩
  · simp [parseRoute]
  · simp [callTagRetained, List.contains_eq_any_beq, List.any_eq_true,
      beq_iff_eq]

/-- C8 — witness: a concrete raw list with one call of each recognized tag
and one unrecognized call, checked through the theorem. -/
theorem c8_witness :
    ({ tag := "BRIDGE", payload := "b" } : ParsedCall) ∈
      parseRoute
        [{ tag := "BRIDGE", payload := "b" },
         { tag := "UNKNOWN", payload := "u" },
         { tag := "SWAP", payload := "s" }] ∧
    (parseRoute
        [{ tag := "BRIDGE", payload := "b" },
         { tag := "UNKNOWN", payload := "u" },
         { tag := "SWAP", payload := "s" }]).length = 2 := by
  constructor
  · exact ((c8_theorem
      [{ tag := "BRIDGE", payload := "b" },
       { tag := "UNKNOWN", payload := "u" },
       { tag := "SWAP", payload := "s" }]).1
      { tag := "BRIDGE", payload := "b" }).mpr
      ⟨{ tag := "BRIDGE", payload := "b" }, by decide, by decide, by decide⟩
  · exact (c8_theorem
      [{ tag := "BRIDGE", payload := "b" },
       { tag := "UNKNOWN", payload := "u" },
       { tag := "SWAP", payload := "s" }]).2.1.trans (by decide)

/-- The fold of `getAllBalancesStep` splits into two filters: relative to any
accumulator, the first group extends by the requested non-Cosmos chains in
order, the second by the requested Cosmos chains in order. -/
theorem getAllBalancesStep_foldl (norm : List String) (chains : List ChainData)
    (acc : List ChainId × List ChainId) :
    chains.foldl (getAllBalancesStep norm) acc =
      (acc.fst ++ (chains.filter (fun c =>
          norm.contains c.chainId.toStr &&
            !(c.chainType == chainTypeCOSMOS))).map ChainData.chainId,
       acc.snd ++ (chains.filter (fun c =>
          norm.contains c.chainId.toStr &&
            (c.chainType == chainTypeCOSMOS))).map ChainData.chainId) := by
  induction chains generalizing acc with
  | nil => simp
  | cons c rest ih =>
    by_cases h1 : c.chainId.toStr ∈ norm
    · by_cases h2 : c.chainType = chainTypeCOSMOS
      · have hstep : getAllBalancesStep norm acc c = (acc.fst, acc.snd ++ [c.chainId]) := by
          simp [getAllBalancesStep, h1, h2]
        simp only [List.foldl_cons, hstep, ih, List.filter_cons]
        simp [h1, h2]
      · have hstep : getAllBalancesStep norm acc c = (acc.fst ++ [c.chainId], acc.snd) := by
          simp [getAllBalancesStep, h1, h2]
        simp only [List.foldl_cons, hstep, ih, List.filter_cons]
        simp [h1, h2]
    · have hstep : getAllBalancesStep norm acc c = acc := by
        simp [getAllBalancesStep, h1]
      simp only [List.foldl_cons, hstep, ih, List.filter_cons]
      simp [h1]

/-- C10 — the chain-id partition of `getAllBalances`: the first (EVM) group
is exactly the requested chains whose family is not COSMOS — there is no
unsupported-family branch — the second group exactly the requested COSMOS
chains, and a chain whose normalized id is not among the requested ids lands
in neither group. -/
theorem c10_theorem (s : SquidState) (chainIds : List ChainId) :
    ((getAllBalancesPartition s chainIds).fst =
      (s.chains.filter (fun c =>
          (chainIds.map ChainId.toStr).contains c.chainId.toStr &&
            !(c.chainType == chainTypeCOSMOS))).map ChainData.chainId) ∧
    ((getAllBalancesPartition s chainIds).snd =
      (s.chains.filter (fun c =>
          (chainIds.map ChainId.toStr).contains c.chainId.toStr &&
            (c.chainType == chainTypeCOSMOS))).map ChainData.chainId) ∧
    (∀ c, c ∈ s.chains →
      (chainIds.map ChainId.toStr).contains c.chainId.toStr = true →
      c.chainType ≠ chainTypeCOSMOS →
      c.chainId ∈ (getAllBalancesPartition s chainIds).fst) ∧
    (∀ c, c ∈ s.chains →
      (chainIds.map ChainId.toStr).contains c.chainId.toStr = true →
      c.chainType = chainTypeCOSMOS →
      c.chainId ∈ (getAllBalancesPartition s chainIds).snd) ∧
    (∀ x, (x ∈ (getAllBalancesPartition s chainIds).fst ∨
           x ∈ (getAllBalancesPartition s chainIds).snd) →
      ∃ c, c ∈ s.chains ∧ c.chainId = x ∧
        (chainIds.map ChainId.toStr).contains c.chainId.toStr = true) := by
  have hfold := getAllBalancesStep_foldl (chainIds.map ChainId.toStr)
    s.chains ([], [])
  have hpart : getAllBalancesPartition s chainIds =
      ((s.chains.filter (fun c =>
          (chainIds.map ChainId.toStr).contains c.chainId.toStr &&
            !(c.chainType == chainTypeCOSMOS))).map ChainData.chainId,
       (s.chains.filter (fun c =>
          (chainIds.map ChainId.toStr).contains c.chainId.toStr &&
            (c.chainType == chainTypeCOSMOS))).map ChainData.chainId) := by
    unfold getAllBalancesPartition
    rw [hfold]
    simp
  refine ⟨by rw [hpart], by rw [hpart], fun c hc hreq htype => ?_,
    fun c hc hreq htype => ?_, fun x hx => ?_⟩
  · rw [hpart]
    refine List.mem_map.mpr ⟨c, List.mem_filter.mpr ⟨hc, ?_⟩, rfl⟩
    simp only [Bool.and_eq_true]
    exact ⟨hreq, by simp [htype]⟩
  · rw [hpart]
    refine List.mem_map.mpr ⟨c, List.mem_filter.mpr ⟨hc, ?_⟩, rfl⟩
    simp only [Bool.and_eq_true]
    exact ⟨hreq, by simp [htype]⟩
  · rw [hpart] at hx
    rcases hx with hx | hx <;>
    · rcases List.mem_map.mp hx with ⟨c, hcf, hcx⟩
      rcases List.mem_filter.mp hcf with ⟨hcmem, hcond⟩
      simp only [Bool.and_eq_true] at hcond
      exact ⟨c, hcmem, hcx, hcond.1⟩

/-- C10 — witness: a concrete metadata store with an EVM chain, a Cosmos
chain, an unknown-family chain and an unrequested chain, partitioned through
the theorem. -/
theorem c10_witness :
    (getAllBalancesPartition
        { initialized := true
          chains := [{ chainId := .num 1, chainType := "evm", rpc := "r",
                       nativeSymbol := "ETH" },
                     { chainId := .str "cosmoshub-4", chainType := "cosmos",
                       rpc := "r", nativeSymbol := "ATOM" },
                     { chainId := .num 2, chainType := "solana", rpc := "r",
                       nativeSymbol := "SOL" },
                     { chainId := .num 3, chainType := "evm", rpc := "r",
                       nativeSymbol := "ETH" }]
          tokens := [] }
        [.num 1, .str "cosmoshub-4", .num 2]).fst =
      [ChainId.num 1, ChainId.num 2] := by
  rw [(c10_theorem
    { initialized := true
      chains := [{ chainId := .num 1, chainType := "evm", rpc := "r",
                   nativeSymbol := "ETH" },
                 { chainId := .str "cosmoshub-4", chainType := "cosmos",
                   rpc := "r", nativeSymbol := "ATOM" },
                 { chainId := .num 2, chainType := "solana", rpc := "r",
                   nativeSymbol := "SOL" },
                 { chainId := .num 3, chainType := "evm", rpc := "r",
                   nativeSymbol := "ETH" }]
      tokens := [] }
    [.num 1, .str "cosmoshub-4", .num 2]).1]
  decide

/-- `find?` distributes over append, taking the first hit. -/
theorem findFirst_append_or (p : GasKey × Option String → Bool) (l₁ l₂ : GasObject) :
    List.find? p (l₁ ++ l₂) =
      ((List.find? p l₁).orElse fun _ => List.find? p l₂) := by
  induction l₁ with
  | nil => simp [Option.orElse]
  | cons kv rest ih =>
    by_cases h : p kv = true <;> simp [List.find?_cons, h, ih, Option.orElse]

/-- `find?` by key commutes with a key-preserving map. -/
theorem findFirst_key_map (f : GasKey × Option String → GasKey × Option String)
    (hf : ∀ kv, (f kv).fst = kv.fst) (a : GasObject) (k : GasKey) :
    List.find? (fun kv => kv.fst == k) (a.map f) =
      (List.find? (fun kv => kv.fst == k) a).map f := by
  induction a with
  | nil => simp
  | cons kv rest ih =>
    by_cases h : kv.fst = k
    · simp [List.find?_cons, hf, h]
    · simp [List.find?_cons, hf, h, ih]

/-- `find?` by key passes through a filter that keeps every entry with that
key. -/
theorem findFirst_key_filter_pass (q : GasKey × Option String → Bool)
    (b : GasObject) (k : GasKey)
    (h : ∀ kv : GasKey × Option String, kv.fst = k → q kv = true) :
    List.find? (fun kv => kv.fst == k) (b.filter q) =
      List.find? (fun kv => kv.fst == k) b := by
  induction b with
  | nil => simp
  | cons kv rest ih =>
    by_cases hk : kv.fst = k
    · simp [List.filter_cons, h kv hk, List.find?_cons, hk, ih]
    · by_cases hq : q kv = true
      · simp [List.filter_cons, hq, List.find?_cons, hk, ih]
      · have hq' : q kv = false := by simpa using hq
        simp [List.filter_cons, hq', List.find?_cons, hk, ih]

/-- When every key of `b` is overridden or kept, a key present in `b` looks
up in `{...a, ...b}` to `b`'s value. -/
theorem gasLookup_jsSpread_override (a b : GasObject) (k : GasKey)
    (hb : gasHasKey b k = true) :
    gasLookup (jsSpread a b) k = gasLookup b k := by
  obtain ⟨kvb, hfind⟩ : ∃ kvb,
      List.find? (fun kv => kv.fst == k) b = some kvb := by
    unfold gasHasKey at hb
    exact Option.isSome_iff_exists.mp hb
  have hfst : ∀ kv : GasKey × Option String,
      (spreadEntry b kv).fst = kv.fst := by
    intro kv
    cases h : gasLookup b kv.fst <;> simp [spreadEntry, h]
  unfold jsSpread gasLookup
  rw [findFirst_append_or, findFirst_key_map _ hfst]
  cases hfa : List.find? (fun kv => kv.fst == k) a with
  | some kva =>
    have hka : kva.fst = k := by
      have := List.find?_some hfa
      simpa using this
    have hlb : gasLookup b kva.fst = some kvb.snd := by
      simp [gasLookup, hka, hfind]
    simp [Option.orElse, spreadEntry, hlb, hfind]
  | none =>
    have hpass : List.find? (fun kv => kv.fst == k)
        (b.filter fun kv => !gasHasKey a kv.fst) =
          List.find? (fun kv => kv.fst == k) b := by
      refine findFirst_key_filter_pass _ b k fun kv hkv => ?_
      have : gasHasKey a kv.fst = false := by
        unfold gasHasKey
        rw [hkv, hfa]
        rfl
      simp [this]
    simp [Option.orElse, hpass]

/-- A key absent from `b` looks up in `{...a, ...b}` to `a`'s value. -/
theorem gasLookup_jsSpread_no_override (a b : GasObject) (k : GasKey)
    (hb : gasHasKey b k = false) :
    gasLookup (jsSpread a b) k = gasLookup a k := by
  have hbn : List.find? (fun kv => kv.fst == k) b = none := by
    unfold gasHasKey at hb
    exact Option.not_isSome_iff_eq_none.mp (by simp [hb])
  have hfst : ∀ kv : GasKey × Option String,
      (spreadEntry b kv).fst = kv.fst := by
    intro kv
    cases h : gasLookup b kv.fst <;> simp [spreadEntry, h]
  unfold jsSpread gasLookup
  rw [findFirst_append_or, findFirst_key_map _ hfst]
  cases hfa : List.find? (fun kv => kv.fst == k) a with
  | some kva =>
    have hka : kva.fst = k := by
      have := List.find?_some hfa
      simpa using this
    have hlb : gasLookup b kva.fst = none := by
      simp [gasLookup, hka, hbn]
    simp [Option.orElse, spreadEntry, hlb, hfa]
  | none =>
    have hfilter : List.find? (fun kv => kv.fst == k)
        (b.filter fun kv => !gasHasKey a kv.fst) = none := by
      rw [List.find?_eq_none]
      intro x hx
      have hxb : x ∈ b := (List.mem_filter.mp hx).1
      have := List.find?_eq_none.mp hbn x hxb
      simpa using this
    simp [Option.orElse, hfilter]

/-- C5 — `getGasData` without overrides emits exactly
{gasLimit, maxPriorityFeePerGas, maxFeePerGas} when the request's
`maxPriorityFeePerGas` is set (truthy) and exactly {gasLimit, gasPrice}
otherwise; and with an overrides object, every overridden key takes the
override's value while every other key keeps its derived value. -/
theorem c5_theorem (tr : SquidData) (ov : GasObject) :
    (strTruthy tr.maxPriorityFeePerGas = true →
      (getGasData tr none).map Prod.fst =
        [GasKey.gasLimit, GasKey.maxPriorityFeePerGas, GasKey.maxFeePerGas]) ∧
    (strTruthy tr.maxPriorityFeePerGas = false →
      (getGasData tr none).map Prod.fst =
        [GasKey.gasLimit, GasKey.gasPrice]) ∧
    (∀ k, gasHasKey ov k = true →
      gasLookup (getGasData tr (some ov)) k = gasLookup ov k) ∧
    (∀ k, gasHasKey ov k = false →
      gasLookup (getGasData tr (some ov)) k =
        gasLookup (getGasData tr none) k) := by
  refine ⟨fun h => ?_, fun h => ?_, fun k hk => ?_, fun k hk => ?_⟩
  · simp [getGasData, h]
  · simp [getGasData, h]
  · simp only [getGasData]
    split <;> exact gasLookup_jsSpread_override _ ov k hk
  · simp only [getGasData]
    split <;> exact gasLookup_jsSpread_no_override _ ov k hk

/-- A concrete fee-market transaction request. -/
def c5Request : SquidData :=
  { target := "0xtarget", callData := "0xdata", value := "0",
    gasLimit := some "21000", gasPrice := some "7",
    maxPriorityFeePerGas := some "2", maxFeePerGas := some "30" }

/-- C5 — witness: on the concrete fee-market request, the derived field set
is exactly {gasLimit, maxPriorityFeePerGas, maxFeePerGas}; overriding
`gasLimit` replaces exactly that key's value and `maxFeePerGas` keeps its
derived value. -/
theorem c5_witness :
    ((getGasData c5Request none).map Prod.fst =
      [GasKey.gasLimit, GasKey.maxPriorityFeePerGas, GasKey.maxFeePerGas]) ∧
    (gasLookup (getGasData c5Request (some [(GasKey.gasLimit, some "50000")]))
        GasKey.gasLimit = some (some "50000")) ∧
    (gasLookup (getGasData c5Request (some [(GasKey.gasLimit, some "50000")]))
        GasKey.maxFeePerGas =
      gasLookup (getGasData c5Request none) GasKey.maxFeePerGas) := by
  have h := c5_theorem c5Request [(GasKey.gasLimit, some "50000")]
  refine ⟨h.1 (by decide), ?_, ?_⟩
  · exact (h.2.2.1 GasKey.gasLimit (by decide)).trans (by decide)
  · exact h.2.2.2 GasKey.maxFeePerGas (by decide)
